import Mathlib

/-!
Verification of the Mood Diary Compass application core
(`gemini_logic.py` and `app.py`).

The embedding models the pure parts of the code directly (string
composition, the mood score table) and the effectful parts (the Gemini
client, the secrets store, the wall clock) as explicit environment
records, so that each code path of `analyze_user_input` and
`generate_report` is a branch of a total Lean function.
-/

set_option maxRecDepth 4000

namespace MoodDiary

/-- A sub-model for a single book or movie recommendation
(`gemini_logic.py`, `class Recommendation`). -/
structure Recommendation where
  title : String
  reason : String
deriving DecidableEq, Repr

/-- The main structured model for all analysis and recommendations
(`gemini_logic.py`, `class UserAnalysis`). The mood is kept as a raw
string at this level: the schema submitted to the provider constrains it
to nine labels at generation time, and the code does not re-validate the
value after parsing. -/
structure UserAnalysis where
  overall_mood : String
  mood_summary : String
  health_tip_1 : String
  health_tip_2 : String
  movie_recommendations : List Recommendation
  book_recommendations : List Recommendation
deriving DecidableEq, Repr

/-- The nine mood labels of the `Mood` literal type in `gemini_logic.py`. -/
def moodLabels : List String :=
  ["Joyful", "Happy", "Calm", "Neutral", "Anxious", "Stressed", "Sad", "Angry", "Frustrated"]

/-- Python `str.rstrip(", ")`: remove the longest trailing run of
characters drawn from the two-character set comma, space. -/
def rstripCommaSpace (s : String) : String :=
  ⟨(s.data.reverse.dropWhile (fun c => c == ',' || c == ' ')).reverse⟩

/-- The dynamically built recommendation clause of `analyze_user_input`
(`gemini_logic.py` lines 53-63): append the movie clause when
`num_movies > 0`, append the book clause when `num_books > 0`, then
strip trailing commas and spaces. -/
def recommendation_instructions (num_movies num_books : Nat) : String :=
  let s : String := ""
  let s := if num_movies > 0 then
    s ++ "and suggest exactly " ++ toString num_movies ++ " relevant movies," else s
  let s := if num_books > 0 then
    s ++ "and suggest exactly " ++ toString num_books ++ " relevant books," else s
  rstripCommaSpace s

/-- The movie clause as it survives comma-stripping when it comes last. -/
def movieClause (n : Nat) : String :=
  "and suggest exactly " ++ toString n ++ " relevant movies"

/-- The book clause as it survives comma-stripping when it comes last. -/
def bookClause (n : Nat) : String :=
  "and suggest exactly " ++ toString n ++ " relevant books"

/-- The fixed text preceding the recommendation clause in the system
instruction (`gemini_logic.py` lines 66-69). -/
def instructionHead : String :=
  "You are an empathetic wellness assistant. Your task is to analyze the user\x27s text, determine their mood, provide two helpful health and wellness tips tailored to that mood"

/-- The fixed closing sentence of the system instruction
(`gemini_logic.py` lines 71-73). -/
def instructionTail : String :=
  "You must return the entire response in a single JSON object that strictly adheres to the provided schema. If a recommendation type was not requested (count is 0), return an empty list for that field."

/-- The full system instruction composed by `analyze_user_input`
(`gemini_logic.py` lines 66-74): head, a space, the recommendation
clause, a period and space, then the closing sentence. -/
def system_instruction (num_movies num_books : Nat) : String :=
  instructionHead ++ " " ++ recommendation_instructions num_movies num_books ++ ". " ++ instructionTail

/-- The user-facing prompt wrapping the raw text
(`gemini_logic.py` line 76). -/
def promptFor (user_text : String) : String :=
  "Analyze my current situation and provide advice based on this: \x27" ++ user_text ++ "\x27"

/-- The dictionary returned by `analyze_user_input`, with its three
possible keys made explicit as optional fields. -/
structure ResultDict where
  error : Option String
  success : Option Bool
  data : Option UserAnalysis
deriving DecidableEq, Repr

/-- Outcome of the external `generate_content` call: either a parsed
`UserAnalysis`, or an exception message covering transport failure,
provider-side rejection, and a response that fails schema parsing. -/
inductive ApiResult where
  | ok (ua : UserAnalysis)
  | exn (msg : String)
deriving DecidableEq, Repr

/-- Abstract external world seen by `analyze_user_input`: constructing a
client from an api key may raise (modelled as `some` error detail), and
the single `generate_content` call, given the system instruction and the
prompt, either returns a parsed result or raises. -/
structure GeminiEnv where
  clientInit : Option String → Option String
  generate : String → String → ApiResult

/-- Result of `analyze_user_input` together with the number of
`generate_content` calls issued, so that zero-call and
exactly-one-call guarantees are statable. -/
structure AnalyzeTrace where
  result : ResultDict
  networkCalls : Nat

/-- `gemini_logic.analyze_user_input` (lines 35-93): initialize the
client, returning an error dictionary if that raises; build the
instruction strings; issue exactly one `generate_content` call; convert
any exception from the call or from parsing into an error dictionary;
on success return a success dictionary wrapping the parsed data. -/
def analyze_user_input (env : GeminiEnv) (user_text : String)
    (num_movies num_books : Nat) (api_key : Option String) : AnalyzeTrace :=
  match env.clientInit api_key with
  | some e =>
      { result := { error := some ("API Client Error. Ensure GEMINI_API_KEY is set. Details: " ++ e),
                    success := none, data := none },
        networkCalls := 0 }
  | none =>
      match env.generate (system_instruction num_movies num_books) (promptFor user_text) with
      | ApiResult.ok ua =>
          { result := { error := none, success := some true, data := some ua },
            networkCalls := 1 }
      | ApiResult.exn e =>
          { result := { error := some ("Gemini API Call Failed. Details: " ++ e),
                        success := none, data := none },
            networkCalls := 1 }

/-- One history record appended after a successful report
(`app.py` lines 61-68). -/
structure HistoryEntry where
  timestamp : Nat
  mood : String
  summary : String
  movies : Nat
  books : Nat
deriving DecidableEq, Repr

/-- The Streamlit session state relevant to report generation: the
history list and the current report slot. -/
structure SessionState where
  history : List HistoryEntry
  report_data : Option UserAnalysis
deriving DecidableEq, Repr

/-- The widget values read by `generate_report`. -/
structure WidgetState where
  user_text : String
  movie_toggle : Bool
  num_movies_slider : Nat
  book_toggle : Bool
  num_books_slider : Nat

/-- External world seen by `generate_report`: the secrets store
(`none` models the `KeyError` when GEMINI_API_KEY is missing), the wall
clock read by `pd.Timestamp.now()`, and the Gemini environment. -/
structure AppEnv where
  secrets : Option String
  now : Nat
  gemini : GeminiEnv

/-- The validation message shown for falsy input text (`app.py` line 27). -/
def validationMessage : String :=
  "Please describe your current feelings or situation before generating a report."

/-- The message shown when the secret is absent (`app.py` line 35). -/
def credentialsMessage : String :=
  "❌ API Key Error: GEMINI_API_KEY not found in Streamlit Secrets. Please configure your secrets."

/-- Python truthiness of `result.get("error")`: the key is present and
its string value is non-empty. -/
def errTruthy (o : Option String) : Bool :=
  match o with
  | none => false
  | some s => !s.isEmpty

/-- The HistoryEntry derived from a successful analysis
(`app.py` lines 61-68). -/
def mkEntry (now : Nat) (d : UserAnalysis) : HistoryEntry :=
  { timestamp := now, mood := d.overall_mood, summary := d.mood_summary,
    movies := d.movie_recommendations.length, books := d.book_recommendations.length }

/-- `app.generate_report` (lines 22-68): reject falsy (empty) input
text; fetch the secret, rejecting when it is absent; derive the counts
from the toggles and sliders; call `analyze_user_input`; on a truthy
error show it and clear the report; otherwise store the report and
append one history entry. The returned triple is the new session state,
the error message displayed (if any), and the number of provider calls
made; the overall `none` models the `KeyError` crash that would occur if
a result dictionary had neither a truthy error nor a data key. -/
def generate_report (env : AppEnv) (w : WidgetState) (st : SessionState) :
    Option (SessionState × Option String × Nat) :=
  let user_text := w.user_text
  if user_text = "" then
    some ({ st with report_data := none }, some validationMessage, 0)
  else
    match env.secrets with
    | none => some ({ st with report_data := none }, some credentialsMessage, 0)
    | some gemini_key =>
      let num_movies := (cond w.movie_toggle 1 0) * w.num_movies_slider
      let num_books := (cond w.book_toggle 1 0) * w.num_books_slider
      let tr := analyze_user_input env.gemini user_text num_movies num_books (some gemini_key)
      if errTruthy tr.result.error then
        some ({ st with report_data := none }, tr.result.error, tr.networkCalls)
      else
        match tr.result.data with
        | some d => some ({ history := st.history ++ [mkEntry env.now d],
                            report_data := some d }, none, tr.networkCalls)
        | none => none

/-- Repeated report generation: thread the session state through a
sequence of attempts, each with its own environment and widget values. -/
def run_attempts : List (AppEnv × WidgetState) → SessionState → Option SessionState
  | [], st => some st
  | p :: rest, st => (generate_report p.1 p.2 st).bind (fun r => run_attempts rest r.1)

/-- The history entry an attempt contributes, independent of the prior
session state: `none` for every failed outcome, the derived entry for a
success. -/
def attemptEntry (env : AppEnv) (w : WidgetState) : Option HistoryEntry :=
  if w.user_text = "" then none
  else match env.secrets with
    | none => none
    | some gemini_key =>
      let tr := analyze_user_input env.gemini w.user_text
          ((cond w.movie_toggle 1 0) * w.num_movies_slider)
          ((cond w.book_toggle 1 0) * w.num_books_slider) (some gemini_key)
      if errTruthy tr.result.error then none
      else tr.result.data.map (mkEntry env.now)

/-- The mood to score table of `display_history` (`app.py` lines 123-127). -/
def mood_score_map : List (String × Nat) :=
  [("Joyful", 5), ("Happy", 4), ("Calm", 3), ("Neutral", 3),
   ("Anxious", 2), ("Stressed", 2), ("Sad", 1), ("Angry", 1), ("Frustrated", 1)]

/-- `pandas` `Series.map` with a dictionary: a key missing from the
dictionary yields a missing value (NaN), modelled as `none`. -/
def moodScore (m : String) : Option Nat :=
  (mood_score_map.find? (fun p => p.1 == m)).map Prod.snd

/-- The numeric trend series derived from history in `display_history`:
one, possibly missing, score per entry, in order. -/
def trendScores (history : List HistoryEntry) : List (Option Nat) :=
  history.map (fun h => moodScore h.mood)

def uaHappy : UserAnalysis :=
  { overall_mood := "Happy", mood_summary := "ok", health_tip_1 := "t1", health_tip_2 := "t2",
    movie_recommendations := [], book_recommendations := [] }

def envOkG : GeminiEnv :=
  { clientInit := fun _ => none, generate := fun _ _ => ApiResult.ok uaHappy }

def envExnG : GeminiEnv :=
  { clientInit := fun _ => none, generate := fun _ _ => ApiResult.exn "boom" }

def envNoClientG : GeminiEnv :=
  { clientInit := fun _ => some "no key", generate := fun _ _ => ApiResult.exn "unreachable" }

def envOkA : AppEnv := { secrets := some "k", now := 7, gemini := envOkG }

def envNoSecretsA : AppEnv := { secrets := none, now := 7, gemini := envOkG }

def wBasic : WidgetState :=
  { user_text := "I feel great", movie_toggle := false, num_movies_slider := 0,
    book_toggle := false, num_books_slider := 0 }

def wEmptyText : WidgetState :=
  { user_text := "", movie_toggle := false, num_movies_slider := 0,
    book_toggle := false, num_books_slider := 0 }

def wSpaceText : WidgetState :=
  { user_text := " ", movie_toggle := false, num_movies_slider := 0,
    book_toggle := false, num_books_slider := 0 }

def entryBored : HistoryEntry :=
  { timestamp := 1, mood := "Bored", summary := "meh", movies := 0, books := 0 }

lemma rstrip_comma (x : String) (l : List Char) (hl : x.data = l ++ ['s']) :
    rstripCommaSpace (x ++ ",") = x := by
  apply String.ext
  show ((x ++ ",").data.reverse.dropWhile (fun c => c == ',' || c == ' ')).reverse = x.data
  rw [String.data_append, hl]
  simp [List.dropWhile_cons]

lemma movieClause_data (m : Nat) :
    (movieClause m).data =
      ("and suggest exactly " ++ toString m ++ " relevant movie").data ++ ['s'] := by
  have h : (" relevant movies" : String).data = (" relevant movie" : String).data ++ ['s'] := by
    decide
  simp [movieClause, String.data_append, h]

lemma bookClause_data (b : Nat) :
    (bookClause b).data =
      ("and suggest exactly " ++ toString b ++ " relevant book").data ++ ['s'] := by
  have h : (" relevant books" : String).data = (" relevant book" : String).data ++ ['s'] := by
    decide
  simp [bookClause, String.data_append, h]

lemma both_clause_data (m b : Nat) :
    (movieClause m ++ "," ++ bookClause b).data =
      (movieClause m ++ "," ++ ("and suggest exactly " ++ toString b ++ " relevant book")).data
        ++ ['s'] := by
  simp [String.data_append, bookClause_data, List.append_assoc]

lemma recInstr_none (m b : Nat) (hm : m = 0) (hb : b = 0) :
    recommendation_instructions m b = "" := by
  subst hm; subst hb; decide

lemma recInstr_movies (m b : Nat) (hm : 0 < m) (hb : b = 0) :
    recommendation_instructions m b = movieClause m := by
  subst hb
  have hms : ("" : String) ++ "and suggest exactly " ++ toString m ++ " relevant movies,"
      = movieClause m ++ "," := by
    apply String.ext
    have h : (" relevant movies," : String).data
        = (" relevant movies" : String).data ++ [','] := by decide
    simp [movieClause, String.data_append, h]
  unfold recommendation_instructions
  dsimp only
  have h0 : ¬ (0 > 0) := by omega
  rw [if_neg h0, if_pos hm, hms]
  exact rstrip_comma _ _ (movieClause_data m)

lemma recInstr_books (m b : Nat) (hm : m = 0) (hb : 0 < b) :
    recommendation_instructions m b = bookClause b := by
  subst hm
  have hbs : ("" : String) ++ "and suggest exactly " ++ toString b ++ " relevant books,"
      = bookClause b ++ "," := by
    apply String.ext
    have h : (" relevant books," : String).data
        = (" relevant books" : String).data ++ [','] := by decide
    simp [bookClause, String.data_append, h]
  unfold recommendation_instructions
  dsimp only
  have h0 : ¬ (0 > 0) := by omega
  rw [if_neg h0, if_pos hb, hbs]
  exact rstrip_comma _ _ (bookClause_data b)

lemma recInstr_both (m b : Nat) (hm : 0 < m) (hb : 0 < b) :
    recommendation_instructions m b = movieClause m ++ "," ++ bookClause b := by
  have hsrc : (("" : String) ++ "and suggest exactly " ++ toString m ++ " relevant movies,")
        ++ "and suggest exactly " ++ toString b ++ " relevant books,"
      = (movieClause m ++ "," ++ bookClause b) ++ "," := by
    apply String.ext
    have h1 : (" relevant movies," : String).data
        = (" relevant movies" : String).data ++ [','] := by decide
    have h2 : (" relevant books," : String).data
        = (" relevant books" : String).data ++ [','] := by decide
    simp [movieClause, bookClause, String.data_append, h1, h2, List.append_assoc]
  unfold recommendation_instructions
  dsimp only
  rw [if_pos hm, if_pos hb, hsrc]
  exact rstrip_comma _ _ (both_clause_data m b)

lemma getLast_s (x : String) (l : List Char) (hl : x.data = l ++ ['s']) :
    x.data.getLast? = some 's' := by
  rw [hl]; exact List.getLast?_concat l

lemma infix_of_data (x y : String) (pre post : List Char)
    (h : y.data = pre ++ x.data ++ post) : x.data <:+: y.data := by
  rw [h]; exact List.infix_append pre x.data post

set_option maxRecDepth 10000 in
/-- C1: composition of the recommendation clauses in the system
instruction. When both counts are zero the clause part is empty; when
exactly one is positive only its clause appears; when both are positive
the movie clause precedes the book clause, separated by the source
comma; the trailing separator of the last clause is always stripped, so
the clause part never ends in a comma or space; each clause occurs in
the full system instruction exactly when requested. -/
theorem c1_instruction_composition (m b : Nat) :
    recommendation_instructions m b =
      (if 0 < m then
        (if 0 < b then movieClause m ++ "," ++ bookClause b else movieClause m)
       else if 0 < b then bookClause b else "") ∧
    (∀ c, (recommendation_instructions m b).data.getLast? = some c → c ≠ ',' ∧ c ≠ ' ') ∧
    (0 < m → (movieClause m).data <:+: (system_instruction m b).data) ∧
    (0 < b → (bookClause b).data <:+: (system_instruction m b).data) ∧
    (m = 0 → b = 0 →
      recommendation_instructions m b = "" ∧
      ¬ (("and suggest" : String).data <:+: (system_instruction m b).data)) := by
  rcases Nat.eq_zero_or_pos m with hm | hm <;> rcases Nat.eq_zero_or_pos b with hb | hb
  · refine ⟨?_, ?_, ?_, ?_, ?_⟩
    · rw [recInstr_none m b hm hb]; simp [hm, hb]
    · intro c hc
      rw [recInstr_none m b hm hb] at hc
      simp at hc
    · intro h; omega
    · intro h; omega
    · intro _ _
      subst hm; subst hb
      exact ⟨recInstr_none 0 0 rfl rfl, by decide⟩
  · refine ⟨?_, ?_, ?_, ?_, ?_⟩
    · rw [recInstr_books m b hm hb]; simp [hm, hb]
    · intro c hc
      rw [recInstr_books m b hm hb, getLast_s _ _ (bookClause_data b)] at hc
      cases hc; decide
    · intro h; omega
    · intro _
      apply infix_of_data _ _ (instructionHead ++ " ").data ((". " ++ instructionTail).data)
      rw [system_instruction, recInstr_books m b hm hb]
      simp [String.data_append, List.append_assoc]
    · intro h; omega
  · refine ⟨?_, ?_, ?_, ?_, ?_⟩
    · rw [recInstr_movies m b hm hb]; simp [hm, hb]
    · intro c hc
      rw [recInstr_movies m b hm hb, getLast_s _ _ (movieClause_data m)] at hc
      cases hc; decide
    · intro _
      apply infix_of_data _ _ (instructionHead ++ " ").data ((". " ++ instructionTail).data)
      rw [system_instruction, recInstr_movies m b hm hb]
      simp [String.data_append, List.append_assoc]
    · intro h; omega
    · intro h; omega
  · refine ⟨?_, ?_, ?_, ?_, ?_⟩
    · rw [recInstr_both m b hm hb]; simp [hm, hb]
    · intro c hc
      rw [recInstr_both m b hm hb, getLast_s _ _ (both_clause_data m b)] at hc
      cases hc; decide
    · intro _
      apply infix_of_data _ _ (instructionHead ++ " ").data
        (("," ++ bookClause b ++ ". " ++ instructionTail).data)
      rw [system_instruction, recInstr_both m b hm hb]
      simp [String.data_append, List.append_assoc]
    · intro _
      apply infix_of_data _ _ ((instructionHead ++ " " ++ movieClause m ++ ",").data)
        ((". " ++ instructionTail).data)
      rw [system_instruction, recInstr_both m b hm hb]
      simp [String.data_append, List.append_assoc]
    · intro h; omega

set_option maxRecDepth 10000 in
/-- C1 witness: the composition theorem instantiated at two movies and
three books, all hypotheses discharged by evaluation. -/
theorem c1_witness :
    recommendation_instructions 2 3 = movieClause 2 ++ "," ++ bookClause 3 ∧
    ((('s' : Char) ≠ ',' ∧ ('s' : Char) ≠ ' ')) ∧
    (movieClause 2).data <:+: (system_instruction 2 3).data := by
  have h := c1_instruction_composition 2 3
  refine ⟨by simpa using h.1, h.2.1 's' (by decide), h.2.2.1 (by decide)⟩

/-- Shape of every dictionary produced by analyze_user_input: an error
dictionary with a non-empty message and no other keys, or a success
dictionary with no error key. -/
lemma analyze_shape (env : GeminiEnv) (text : String) (m b : Nat) (key : Option String) :
    (∃ msg, (analyze_user_input env text m b key).result
        = { error := some msg, success := none, data := none } ∧ msg ≠ "") ∨
    (∃ ua, (analyze_user_input env text m b key).result
        = { error := none, success := some true, data := some ua }) := by
  unfold analyze_user_input
  cases h : env.clientInit key with
  | some e =>
    left
    refine ⟨_, rfl, ?_⟩
    intro hc
    have := congrArg String.data hc
    simp [String.data_append] at this
  | none =>
    cases hg : env.generate (system_instruction m b) (promptFor text) with
    | ok ua => right; exact ⟨ua, rfl⟩
    | exn e =>
      left
      refine ⟨_, rfl, ?_⟩
      intro hc
      have := congrArg String.data hc
      simp [String.data_append] at this

/-- C3: analyze_user_input always yields a typed outcome dictionary;
client-construction exceptions and call or parsing exceptions are both
converted into error dictionaries carrying a human-readable message. -/
theorem c3_no_unhandled_fault (env : GeminiEnv) (text : String) (m b : Nat)
    (key : Option String) :
    ((∃ msg, (analyze_user_input env text m b key).result.error = some msg ∧ msg ≠ "") ∨
     ((analyze_user_input env text m b key).result.success = some true ∧
      ∃ ua, (analyze_user_input env text m b key).result.data = some ua)) ∧
    (∀ e, env.clientInit key = some e →
      (analyze_user_input env text m b key).result.error
        = some ("API Client Error. Ensure GEMINI_API_KEY is set. Details: " ++ e)) ∧
    (∀ e, env.clientInit key = none →
      env.generate (system_instruction m b) (promptFor text) = ApiResult.exn e →
      (analyze_user_input env text m b key).result.error
        = some ("Gemini API Call Failed. Details: " ++ e)) := by
  refine ⟨?_, ?_, ?_⟩
  · rcases analyze_shape env text m b key with ⟨msg, hr, hne⟩ | ⟨ua, hr⟩
    · left; exact ⟨msg, by rw [hr], hne⟩
    · right; rw [hr]; exact ⟨rfl, ua, rfl⟩
  · intro e he
    unfold analyze_user_input
    rw [he]
  · intro e he hg
    unfold analyze_user_input
    rw [he, hg]

/-- C8: once the client is constructed, exactly one generate_content
call is issued, and the outcome is a single fully-populated success
dictionary or a single error dictionary, nothing in between. -/
theorem c8_single_call (env : GeminiEnv) (text : String) (m b : Nat)
    (key : Option String) (h : env.clientInit key = none) :
    (analyze_user_input env text m b key).networkCalls = 1 ∧
    ((∃ ua, (analyze_user_input env text m b key).result
        = { error := none, success := some true, data := some ua }) ∨
     (∃ msg, (analyze_user_input env text m b key).result
        = { error := some msg, success := none, data := none })) := by
  unfold analyze_user_input
  rw [h]
  cases hg : env.generate (system_instruction m b) (promptFor text) <;> simp

/-- C9: every dictionary returned by analyze_user_input has either the
error key alone, or the success and data keys without the error key;
never both error and data. -/
theorem c9_error_key_discriminates (env : GeminiEnv) (text : String) (m b : Nat)
    (key : Option String) :
    (((analyze_user_input env text m b key).result.error).isSome = true ∧
      (analyze_user_input env text m b key).result.data = none ∧
      (analyze_user_input env text m b key).result.success = none) ∨
    ((analyze_user_input env text m b key).result.error = none ∧
      (analyze_user_input env text m b key).result.success = some true ∧
      ((analyze_user_input env text m b key).result.data).isSome = true) := by
  rcases analyze_shape env text m b key with ⟨msg, hr, _⟩ | ⟨ua, hr⟩ <;> rw [hr] <;> simp

lemma errTruthy_ne_none {o : Option String} (h : errTruthy o = true) : o ≠ none := by
  cases o <;> simp [errTruthy] at h ⊢

lemma generate_report_step (env : AppEnv) (w : WidgetState) (st : SessionState)
    (r : SessionState × Option String × Nat) (hr : generate_report env w st = some r) :
    r.1.history = st.history ++ (attemptEntry env w).toList ∧
    (r.2.1 = none → ∃ d, r.1.report_data = some d ∧
        attemptEntry env w = some (mkEntry env.now d)) ∧
    (∀ msg, r.2.1 = some msg → r.1.report_data = none ∧ r.1.history = st.history ∧
        attemptEntry env w = none) := by
  unfold generate_report at hr
  unfold attemptEntry
  by_cases hw : w.user_text = ""
  · rw [if_pos hw] at hr
    rw [if_pos hw]
    have hr' : r = ({ st with report_data := none }, some validationMessage, 0) :=
      (Option.some.injEq _ _).mp hr.symm
    subst hr'
    refine ⟨by simp, ?_, ?_⟩
    · intro h; simp at h
    · intro msg _; exact ⟨rfl, rfl, rfl⟩
  · rw [if_neg hw] at hr
    rw [if_neg hw]
    cases hsec : env.secrets with
    | none =>
      rw [hsec] at hr
      have hr' : r = ({ st with report_data := none }, some credentialsMessage, 0) :=
        (Option.some.injEq _ _).mp hr.symm
      subst hr'
      refine ⟨by simp, ?_, ?_⟩
      · intro h; simp at h
      · intro msg _; exact ⟨rfl, rfl, rfl⟩
    | some gemini_key =>
      rw [hsec] at hr
      dsimp only at hr ⊢
      by_cases herr : errTruthy (analyze_user_input env.gemini w.user_text
          ((cond w.movie_toggle 1 0) * w.num_movies_slider)
          ((cond w.book_toggle 1 0) * w.num_books_slider) (some gemini_key)).result.error
      · rw [if_pos herr] at hr
        rw [if_pos herr]
        have hr' : r = ({ st with report_data := none },
            (analyze_user_input env.gemini w.user_text
              ((cond w.movie_toggle 1 0) * w.num_movies_slider)
              ((cond w.book_toggle 1 0) * w.num_books_slider) (some gemini_key)).result.error,
            (analyze_user_input env.gemini w.user_text
              ((cond w.movie_toggle 1 0) * w.num_movies_slider)
              ((cond w.book_toggle 1 0) * w.num_books_slider) (some gemini_key)).networkCalls) :=
          (Option.some.injEq _ _).mp hr.symm
        subst hr'
        refine ⟨by simp, ?_, ?_⟩
        · intro h; exact absurd h (errTruthy_ne_none herr)
        · intro msg _; exact ⟨rfl, rfl, rfl⟩
      · rw [if_neg herr] at hr
        rw [if_neg herr]
        cases hdata : (analyze_user_input env.gemini w.user_text
            ((cond w.movie_toggle 1 0) * w.num_movies_slider)
            ((cond w.book_toggle 1 0) * w.num_books_slider) (some gemini_key)).result.data with
        | none => rw [hdata] at hr; exact Option.noConfusion hr
        | some d =>
          rw [hdata] at hr
          have hr' : r = ({ history := st.history ++ [mkEntry env.now d], report_data := some d }, none, (analyze_user_input env.gemini w.user_text ((cond w.movie_toggle 1 0) * w.num_movies_slider) ((cond w.book_toggle 1 0) * w.num_books_slider) (some gemini_key)).networkCalls) :=
            (Option.some.injEq _ _).mp hr.symm
          subst hr'
          refine ⟨by simp, ?_, ?_⟩
          · intro _; exact ⟨d, rfl, rfl⟩
          · intro msg hmsg; simp at hmsg

lemma run_attempts_history :
    ∀ (attempts : List (AppEnv × WidgetState)) (st st' : SessionState),
      run_attempts attempts st = some st' →
      st'.history = st.history ++ attempts.filterMap (fun p => attemptEntry p.1 p.2) := by
  intro attempts
  induction attempts with
  | nil =>
    intro st st' h
    simp [run_attempts] at h
    subst h
    simp
  | cons p rest ih =>
    intro st st' h
    simp only [run_attempts] at h
    cases hg : generate_report p.1 p.2 st with
    | none => rw [hg] at h; exact Option.noConfusion h
    | some r =>
      rw [hg] at h
      simp only [Option.some_bind] at h
      have h1 := (generate_report_step p.1 p.2 st r hg).1
      have h2 := ih r.1 st' h
      rw [h2, h1]
      cases hae : attemptEntry p.1 p.2 <;>
        simp [List.filterMap_cons, hae, List.append_assoc]

lemma ne_append_of_head (s t : String) (c d : Char) (hcd : c ≠ d)
    (hs : s.data.head? = some c) (ht : t.data.head? = some d) (e : String) : s ≠ t ++ e := by
  intro h
  apply hcd
  have hd : s.data = t.data ++ e.data := by rw [h, String.data_append]
  cases htd : t.data with
  | nil => rw [htd] at ht; exact Option.noConfusion ht
  | cons x xs =>
    rw [htd] at ht
    rw [hd, htd] at hs
    simp at hs ht
    rw [← hs, ← ht]

/-- C2 counterexample: the whitespace-only input consisting of one space
is not rejected: generate_report proceeds to the provider call (one
network call), displays no validation error, stores a report and appends
a history entry. -/
theorem c2_counterexample :
    generate_report envOkA wSpaceText { history := [], report_data := none }
      = some ({ history := [mkEntry 7 uaHappy], report_data := some uaHappy }, none, 1) := by
  decide

/-- C2 amended: only the empty string is rejected before the secrets
lookup, with the validation message, zero provider calls, the report
slot cleared and the history untouched; whitespace-only non-empty text
is not rejected. -/
theorem c2_amended_empty_only (env : AppEnv) (w : WidgetState) (st : SessionState)
    (h : w.user_text = "") :
    generate_report env w st
      = some ({ st with report_data := none }, some validationMessage, 0) ∧
    ({ st with report_data := none } : SessionState).history = st.history := by
  refine ⟨?_, rfl⟩
  unfold generate_report
  dsimp only
  rw [if_pos h]

/-- C2 witness: the amended theorem at empty input text. -/
theorem c2_witness :
    generate_report envOkA wEmptyText { history := [], report_data := some uaHappy }
      = some ({ history := [], report_data := none }, some validationMessage, 0) := by
  exact (c2_amended_empty_only envOkA wEmptyText
    { history := [], report_data := some uaHappy } rfl).1

/-- C4: one history entry, derived from the analysis result and the wall
clock, is appended per successful outcome; zero entries per failed
outcome; the report slot is replaced on success; over any sequence of
attempts the history is the original list extended, in submission order,
with exactly one entry per success. -/
theorem c4_history_per_outcome :
    (∀ env w st r, generate_report env w st = some r →
        r.1.history = st.history ++ (attemptEntry env w).toList ∧
        (r.2.1 = none → ∃ d, r.1.report_data = some d ∧
            attemptEntry env w = some (mkEntry env.now d)) ∧
        (∀ msg, r.2.1 = some msg → r.1.history = st.history)) ∧
    (∀ attempts st st', run_attempts attempts st = some st' →
        st'.history = st.history ++ attempts.filterMap (fun p => attemptEntry p.1 p.2)) := by
  constructor
  · intro env w st r hr
    have h := generate_report_step env w st r hr
    exact ⟨h.1, h.2.1, fun msg hm => (h.2.2 msg hm).2.1⟩
  · exact run_attempts_history

/-- C4 witness: a successful attempt followed by a failed one leaves
exactly the one entry contributed by the success. -/
theorem c4_witness :
    ({ history := [mkEntry 7 uaHappy], report_data := none } : SessionState).history =
      ({ history := [], report_data := none } : SessionState).history ++
        ([(envOkA, wBasic), (envOkA, wEmptyText)].filterMap fun p => attemptEntry p.1 p.2) :=
  c4_history_per_outcome.2 [(envOkA, wBasic), (envOkA, wEmptyText)]
    { history := [], report_data := none }
    { history := [mkEntry 7 uaHappy], report_data := none } (by decide)

/-- C5: every attempt that displays an error message clears the current
report slot and leaves the history untouched. -/
theorem c5_error_clears_report (env : AppEnv) (w : WidgetState) (st : SessionState)
    (r : SessionState × Option String × Nat) (msg : String)
    (h : generate_report env w st = some r) (hm : r.2.1 = some msg) :
    r.1.report_data = none ∧ r.1.history = st.history := by
  have h2 := (generate_report_step env w st r h).2.2 msg hm
  exact ⟨h2.1, h2.2.1⟩

/-- C5 witness: a validation failure on a session that held a report
clears the report and keeps the history. -/
theorem c5_witness :
    (({ history := [], report_data := none } : SessionState).report_data = none) ∧
    (({ history := [], report_data := none } : SessionState).history
      = ({ history := [], report_data := some uaHappy } : SessionState).history) :=
  c5_error_clears_report envOkA wEmptyText { history := [], report_data := some uaHappy }
    ({ history := [], report_data := none }, some validationMessage, 0) validationMessage
    (by decide) rfl

/-- C6: a missing secret is rejected before any provider interaction
(zero calls), with a credentials message distinct from the validation
message and from both provider-side message shapes; likewise, a client
construction failure inside analyze_user_input yields its own error
dictionary with zero generate_content calls. -/
theorem c6_credentials_failfast :
    (∀ env w st, w.user_text ≠ "" → env.secrets = none →
        generate_report env w st
          = some ({ st with report_data := none }, some credentialsMessage, 0)) ∧
    credentialsMessage ≠ validationMessage ∧
    (∀ e : String,
        credentialsMessage ≠ "API Client Error. Ensure GEMINI_API_KEY is set. Details: " ++ e ∧
        credentialsMessage ≠ "Gemini API Call Failed. Details: " ++ e) ∧
    (∀ env text m b key e, env.clientInit key = some e →
        (analyze_user_input env text m b key).networkCalls = 0 ∧
        (analyze_user_input env text m b key).result.error
          = some ("API Client Error. Ensure GEMINI_API_KEY is set. Details: " ++ e)) := by
  refine ⟨?_, by decide, ?_, ?_⟩
  · intro env w st hw hsec
    unfold generate_report
    dsimp only
    rw [if_neg hw, hsec]
  · intro e
    exact ⟨ne_append_of_head _ _ '❌' 'A' (by decide) (by decide) (by decide) e,
           ne_append_of_head _ _ '❌' 'G' (by decide) (by decide) (by decide) e⟩
  · intro env text m b key e he
    unfold analyze_user_input
    rw [he]
    exact ⟨rfl, rfl⟩

/-- C6 witness: concrete missing-secret and failing-client runs. -/
theorem c6_witness :
    generate_report envNoSecretsA wBasic { history := [], report_data := none }
      = some ({ history := [], report_data := none }, some credentialsMessage, 0) ∧
    (analyze_user_input envNoClientG "hi" 0 0 none).networkCalls = 0 := by
  exact ⟨c6_credentials_failfast.1 envNoSecretsA wBasic _ (by decide) rfl,
         (c6_credentials_failfast.2.2.2 envNoClientG "hi" 0 0 none "no key" rfl).1⟩

/-- C7: the mood-to-score projection takes exactly the reference values
on each of the nine labels and is defined on the whole enum. -/
theorem c7_mood_score_projection :
    moodScore "Joyful" = some 5 ∧ moodScore "Happy" = some 4 ∧ moodScore "Calm" = some 3 ∧
    moodScore "Neutral" = some 3 ∧ moodScore "Anxious" = some 2 ∧ moodScore "Stressed" = some 2 ∧
    moodScore "Sad" = some 1 ∧ moodScore "Angry" = some 1 ∧ moodScore "Frustrated" = some 1 ∧
    moodLabels.all (fun m => (moodScore m).isSome) = true := by decide

lemma moodScore_eq_none (m : String) (hm : m ∉ moodLabels) : moodScore m = none := by
  unfold moodScore
  cases hfind : mood_score_map.find? (fun p => p.1 == m) with
  | none => rfl
  | some p =>
    exfalso
    have hmem := List.mem_of_find?_eq_some hfind
    have hbeq := List.find?_some hfind
    have hp : p.1 = m := by simpa using hbeq
    apply hm
    rw [← hp]
    fin_cases hmem <;> decide

/-- C10: the trend projection is total over arbitrary mood strings in
history: it yields one value slot per entry, and an out-of-enum mood
yields a missing score instead of an error. -/
theorem c10_out_of_enum_missing :
    (∀ m : String, m ∉ moodLabels → moodScore m = none) ∧
    (∀ history : List HistoryEntry, (trendScores history).length = history.length) ∧
    (∀ (history : List HistoryEntry) (i : Nat) (hi : i < history.length),
        history[i].mood ∉ moodLabels → (trendScores history)[i]? = some none) := by
  refine ⟨moodScore_eq_none, ?_, ?_⟩
  · intro history; simp [trendScores]
  · intro history i hi hm
    simp [trendScores, List.getElem?_eq_getElem hi, moodScore_eq_none _ hm]

/-- C10 witness: a history entry with the out-of-enum mood label Bored
contributes a missing score. -/
theorem c10_witness :
    moodScore "Bored" = none ∧ (trendScores [entryBored])[0]? = some none :=
  ⟨c10_out_of_enum_missing.1 "Bored" (by decide),
   c10_out_of_enum_missing.2.2 [entryBored] 0 (by decide) (by decide)⟩

/-- C3 witness: a raising generate_content call is converted into the
provider error dictionary. -/
theorem c3_witness :
    (analyze_user_input envExnG "hi" 0 0 none).result.error
      = some ("Gemini API Call Failed. Details: " ++ "boom") :=
  (c3_no_unhandled_fault envExnG "hi" 0 0 none).2.2 "boom" rfl rfl

/-- C8 witness: a successful run past client construction makes exactly
one call. -/
theorem c8_witness :
    (analyze_user_input envOkG "hi" 0 0 none).networkCalls = 1 :=
  (c8_single_call envOkG "hi" 0 0 none rfl).1

end MoodDiary
